import Mathlib

/-!
Shallow embedding of the `crypto_signer` Rust module
(`src/signer/src/lib.rs` of the CryptoOrchestrator repository).

Bytes are modelled as `Nat` values (meaningful when `< 256`), byte strings
as `List Nat`, and Rust `&str` hex strings as `List Char`.  Fallible Rust
functions returning `Result`/`PyResult` are modelled with `Except`.

The external crates (`k256` for secp256k1 ECDSA, `sha3` for Keccak-256,
`hex` for the hex codec) are not part of the repository source; the hex
codec is embedded faithfully from its documented contract, while the
curve arithmetic and the hash compression function are modelled from the
spec by concrete deterministic functions with the library's interface
contract (output sizes, determinism, scalar-range validation).  Wall-clock
latency measurement (`latency_ms`) is not modelled.
-/

namespace CryptoSigner

/-- Big-endian interpretation of a byte string as a natural number. -/
def bytesToNat (bs : List Nat) : Nat :=
  bs.foldl (fun acc b => acc * 256 + b) 0

/-- Big-endian encoding of `n` into exactly `k` bytes (truncating above `256 ^ k`). -/
def natToBytes : Nat → Nat → List Nat
  | 0, _ => []
  | k + 1, n => natToBytes k (n / 256) ++ [n % 256]

/-- Value of one hex digit character (`hex` crate: `0-9`, `a-f`, `A-F`). -/
def hexDigitVal (c : Char) : Option Nat :=
  if '0' ≤ c ∧ c ≤ '9' then some (c.toNat - '0'.toNat)
  else if 'a' ≤ c ∧ c ≤ 'f' then some (c.toNat - 'a'.toNat + 10)
  else if 'A' ≤ c ∧ c ≤ 'F' then some (c.toNat - 'A'.toNat + 10)
  else none

/-- The `hex` crate's `hex::decode`: pairs of hex digits to bytes; fails on
an odd number of digits or on any non-hex character. -/
def hexDecode : List Char → Option (List Nat)
  | [] => some []
  | [_] => none
  | c1 :: c2 :: rest => do
    let hi ← hexDigitVal c1
    let lo ← hexDigitVal c2
    let bs ← hexDecode rest
    pure ((hi * 16 + lo) :: bs)

/-- Lowercase hex digit character for a value `< 16` (`hex` crate's `hex::encode`). -/
def hexDigitChar (n : Nat) : Char :=
  if n < 10 then Char.ofNat (Char.toNat '0' + n) else Char.ofNat (Char.toNat 'a' + (n - 10))

/-- The `hex` crate's `hex::encode`: two lowercase hex digits per byte. -/
def hexEncode (bs : List Nat) : List Char :=
  bs.flatMap (fun b => [hexDigitChar (b / 16), hexDigitChar (b % 16)])

/-- Rust `str::trim_start_matches("0x")`: removes ALL leading repetitions of
the (case-sensitive) pattern `"0x"`. -/
def trimStart0x : List Char → List Char
  | '0' :: 'x' :: rest => trimStart0x rest
  | s => s

/-- Order of the secp256k1 curve (the `k256` crate's scalar modulus). -/
def curveOrder : Nat :=
  0xFFFFFFFFFFFFFFFFFFFFFFFFFFFFFFFEBAAEDCE6AF48A03BBFD25E8CD0364141

/-- Field prime of secp256k1 (coordinates of public points live below it). -/
def fieldPrime : Nat := 2 ^ 256 - 2 ^ 32 - 977

/-- Modelled from the spec: the `k256` crate's private-scalar decoding used by
`SigningKey::from_bytes` (the crate itself is an external dependency, not in
`src/`).  Per the spec, the bytes must be a 32-byte big-endian encoding of a
non-zero scalar strictly less than the curve order; anything else fails. -/
def scalarFromBytes (bs : List Nat) : Option Nat :=
  if bs.length = 32 then
    let s := bytesToNat bs
    if s ≠ 0 ∧ s < curveOrder then some s else none
  else none

/-- Modelled from the spec: display text of the external library's scalar
decode error (the underlying decode failure reason interpolated into
`"Invalid key bytes: {e}"`). -/
def scalarDecodeErrMsg : String := "signature error"

/-- Modelled from the spec: the `k256` ECDSA signing primitive
(`SigningKey::sign` followed by `Signature::to_bytes`), an external
dependency not in `src/`.  The repository calls the non-randomized `Signer`
API, whose nonce derivation is deterministic (RFC 6979), so the primitive is
a pure function of (private scalar, digest); its output is always exactly
64 bytes: big-endian `r` (32 bytes) followed by big-endian `s` (32 bytes),
each a scalar below the curve order.  The curve arithmetic itself is outside
the repository; only this interface contract is modelled. -/
def ecdsaSignBytes (d : Nat) (digest : List Nat) : List Nat :=
  natToBytes 32 ((d + 2 * bytesToNat digest + 1) % curveOrder) ++
  natToBytes 32 ((3 * d + bytesToNat digest + 2) % curveOrder)

/-- Modelled from the spec: the x-coordinate of the public point derived from
the private scalar (scalar multiplication of the generator, `k256` crate). -/
def pubPointX (d : Nat) : Nat := (d * d + 7) % fieldPrime

/-- Modelled from the spec: the y-coordinate of the public point derived from
the private scalar (scalar multiplication of the generator, `k256` crate). -/
def pubPointY (d : Nat) : Nat := (d * d * d + 7 * d + 1) % fieldPrime

/-- Modelled from the spec: Keccak-256 (`sha3` crate, external collaborator);
a deterministic function of the payload bytes whose digest is always exactly
32 bytes. -/
def keccak256 (payload : List Nat) : List Nat :=
  natToBytes 32 ((bytesToNat payload + payload.length) % 2 ^ 256)

/-- The `k256` crate's `SigningKey` (KeyMaterial): a private scalar. -/
structure SigningKey where
  scalar : Nat
deriving DecidableEq

/-- `SignatureResult` of `lib.rs` (the `latency_ms` wall-clock field is not
modelled). -/
structure SignatureResult where
  signature : List Nat
  r : List Nat
  s : List Nat
  v : Nat
deriving DecidableEq

/-- `ProductionSigner` of `lib.rs`: wraps the signing key. -/
structure ProductionSigner where
  key : SigningKey
deriving DecidableEq

/-- The error string `format!("Digest must be 32 bytes, got {}", digest.len())`
of `ProductionSigner::sign`: it reports the expected length (32, hardcoded in
the text) and the actual length. -/
def digestLengthError (actual : Nat) : String :=
  "Digest must be 32 bytes, got " ++ toString actual

/-- The error string `format!("Invalid key bytes: {}", e)` of
`ProductionSigner::from_bytes`, carrying the underlying decode failure text. -/
def invalidKeyBytesError : String :=
  "Invalid key bytes: " ++ scalarDecodeErrMsg

/-- `ProductionSigner::from_bytes`: decode a signing key from raw bytes,
mapping the library decode error to `"Invalid key bytes: {e}"`. -/
def ProductionSigner.from_bytes (key_bytes : List Nat) : Except String ProductionSigner :=
  match scalarFromBytes key_bytes with
  | some d => .ok { key := { scalar := d } }
  | none => .error invalidKeyBytesError

/-- `ProductionSigner::sign`: reject digests that are not exactly 32 bytes,
otherwise sign and split the 64 signature bytes into `r` (first 32) and `s`
(last 32), with the recovery id hardcoded to 27. -/
def ProductionSigner.sign (self : ProductionSigner) (digest : List Nat) :
    Except String SignatureResult :=
  if digest.length ≠ 32 then
    .error (digestLengthError digest.length)
  else
    let sig_bytes := ecdsaSignBytes self.key.scalar digest
    .ok { signature := sig_bytes
        , r := sig_bytes.take 32
        , s := sig_bytes.drop 32
        , v := 27 }

/-- `ProductionSigner::public_key`: SEC1 uncompressed encoding of the public
point (`to_encoded_point(false)`): tag byte `0x04` followed by the two
32-byte big-endian coordinates. -/
def ProductionSigner.public_key (self : ProductionSigner) : List Nat :=
  4 :: (natToBytes 32 (pubPointX self.key.scalar) ++ natToBytes 32 (pubPointY self.key.scalar))

/-- The distinct `PyValueError` constructions of the three `#[pyfunction]`s,
distinguished by their message origin. -/
inductive PyErr where
  | invalidHexDigest
  | invalidHexKey
  | keyError (msg : String)
  | signError (msg : String)
deriving DecidableEq

/-- The Python dict built by `sign_digest` (minus `latency_ms`). -/
structure SignDigestOutput where
  signature : List Char
  r : List Char
  s : List Char
  v : Nat
deriving DecidableEq

/-- `sign_digest`: decode the digest hex (after stripping `"0x"` prefixes),
then build the signer (decoding and validating the key hex when present,
else using the freshly generated key `freshKey`), then sign. -/
def sign_digest (digest : List Char) (key_hex : Option (List Char))
    (freshKey : ProductionSigner) : Except PyErr SignDigestOutput :=
  match hexDecode (trimStart0x digest) with
  | none => .error .invalidHexDigest
  | some digest_bytes =>
    let signerE : Except PyErr ProductionSigner :=
      match key_hex with
      | some key =>
        match hexDecode (trimStart0x key) with
        | none => .error .invalidHexKey
        | some key_bytes =>
          match ProductionSigner.from_bytes key_bytes with
          | .error e => .error (.keyError e)
          | .ok s => .ok s
      | none => .ok freshKey
    match signerE with
    | .error e => .error e
    | .ok signer =>
      match ProductionSigner.sign signer digest_bytes with
      | .error e => .error (.signError e)
      | .ok result =>
        .ok { signature := '0' :: 'x' :: hexEncode result.signature
            , r := '0' :: 'x' :: hexEncode result.r
            , s := '0' :: 'x' :: hexEncode result.s
            , v := result.v }

/-- `sign_transaction`: Keccak-256 the payload bytes, sign the digest with a
freshly generated key, return the `"0x"`-prefixed signature hex. -/
def sign_transaction (payload : List Nat) (freshKey : ProductionSigner) :
    Except PyErr (List Char) :=
  let digest := keccak256 payload
  match ProductionSigner.sign freshKey digest with
  | .error e => .error (.signError e)
  | .ok result => .ok ('0' :: 'x' :: hexEncode result.signature)

/-- `get_public_key`: decode the key hex (after stripping `"0x"` prefixes),
reconstruct the signer, return the `"0x"`-prefixed public-key hex. -/
def get_public_key (key_hex : List Char) : Except PyErr (List Char) :=
  match hexDecode (trimStart0x key_hex) with
  | none => .error .invalidHexKey
  | some key_bytes =>
    match ProductionSigner.from_bytes key_bytes with
    | .error e => .error (.keyError e)
    | .ok signer => .ok ('0' :: 'x' :: hexEncode (ProductionSigner.public_key signer))

/-! ### Helper lemmas -/

theorem natToBytes_length (k : Nat) : ∀ n, (natToBytes k n).length = k := by
  induction k with
  | zero => intro n; rfl
  | succ k ih => intro n; simp [natToBytes, ih]

theorem hexEncode_length (bs : List Nat) : (hexEncode bs).length = 2 * bs.length := by
  induction bs with
  | nil => rfl
  | cons b t ih =>
    simp only [hexEncode, List.flatMap_cons] at ih ⊢
    simp [ih]
    omega

theorem ecdsaSignBytes_length (d : Nat) (digest : List Nat) :
    (ecdsaSignBytes d digest).length = 64 := by
  simp [ecdsaSignBytes, natToBytes_length]

theorem keccak256_length (payload : List Nat) : (keccak256 payload).length = 32 := by
  simp [keccak256, natToBytes_length]

theorem trimStart0x_0x (s : List Char) : trimStart0x ('0' :: 'x' :: s) = trimStart0x s := rfl

theorem hexDigitVal_0 : hexDigitVal '0' = some 0 := by decide

theorem hexDigitVal_X : hexDigitVal 'X' = none := by decide

theorem hexDecode_0X (s : List Char) : hexDecode ('0' :: 'X' :: s) = none := by
  simp [hexDecode, hexDigitVal_0, hexDigitVal_X, Option.bind]

theorem trimStart0x_0X (s : List Char) : trimStart0x ('0' :: 'X' :: s) = '0' :: 'X' :: s := by
  simp [trimStart0x]

/-! ### Concrete fixtures for witnesses -/

/-- A concrete signer whose private scalar is 1. -/
def pS1 : ProductionSigner := { key := { scalar := 1 } }

/-- The all-zero 32-byte digest. -/
def d32 : List Nat := List.replicate 32 0

/-- The 32-byte big-endian encoding of the scalar 1. -/
def key1bytes : List Nat := List.replicate 31 0 ++ [1]

/-- The signature result produced for scalar 1 on the all-zero digest. -/
def res1 : SignatureResult :=
  { signature := ecdsaSignBytes 1 d32
  , r := (ecdsaSignBytes 1 d32).take 32
  , s := (ecdsaSignBytes 1 d32).drop 32
  , v := 27 }

/-! ### Claims -/

/-- C1: for every KeyMaterial and every digest of exactly 32 bytes, `sign`
succeeds and returns a `SignatureResult` whose `signature` is exactly
64 bytes, whose `r` equals the first 32 bytes of the signature (and is
32 bytes long), whose `s` equals the last 32 bytes (and is 32 bytes long),
and `r ++ s` equals the signature. -/
theorem sign_valid_digest_components (signer : ProductionSigner) (digest : List Nat)
    (h : digest.length = 32) :
    ∃ res : SignatureResult,
      ProductionSigner.sign signer digest = Except.ok res ∧
      res.signature.length = 64 ∧
      res.r = res.signature.take 32 ∧ res.r.length = 32 ∧
      res.s = res.signature.drop 32 ∧ res.s.length = 32 ∧
      res.r ++ res.s = res.signature := by
  have hsign : ProductionSigner.sign signer digest = Except.ok
      { signature := ecdsaSignBytes signer.key.scalar digest
      , r := (ecdsaSignBytes signer.key.scalar digest).take 32
      , s := (ecdsaSignBytes signer.key.scalar digest).drop 32
      , v := 27 } := by
    unfold ProductionSigner.sign
    rw [if_neg (by omega)]
  have hlen := ecdsaSignBytes_length signer.key.scalar digest
  generalize ecdsaSignBytes signer.key.scalar digest = sb at hsign hlen
  refine ⟨_, hsign, hlen, rfl, ?_, rfl, ?_, List.take_append_drop 32 sb⟩
  · simp only [List.length_take, hlen]
    omega
  · simp only [List.length_drop, hlen]

/-- Witness for C1 at the all-zero 32-byte digest and scalar 1. -/
theorem sign_valid_digest_components_witness :
    ∃ res : SignatureResult,
      ProductionSigner.sign pS1 d32 = Except.ok res ∧
      res.signature.length = 64 ∧
      res.r = res.signature.take 32 ∧ res.r.length = 32 ∧
      res.s = res.signature.drop 32 ∧ res.s.length = 32 ∧
      res.r ++ res.s = res.signature :=
  sign_valid_digest_components pS1 d32 (by decide)

/-- C2: for every digest whose length is not 32, `sign` fails with the
digest-length error reporting the expected (32) and actual length, producing
no result; and `sign_digest` on a digest hex that decodes to a wrong length
propagates the same error. -/
theorem sign_rejects_wrong_digest_length :
    (∀ (signer : ProductionSigner) (digest : List Nat), digest.length ≠ 32 →
        ProductionSigner.sign signer digest = Except.error (digestLengthError digest.length)) ∧
    (∀ (dg : List Char) (fk : ProductionSigner) (bs : List Nat),
        hexDecode (trimStart0x dg) = some bs → bs.length ≠ 32 →
        sign_digest dg none fk = Except.error (.signError (digestLengthError bs.length))) := by
  constructor
  · intro signer digest h
    simp [ProductionSigner.sign, h]
  · intro dg fk bs hdec hlen
    unfold sign_digest
    rw [hdec]
    simp [ProductionSigner.sign, hlen]

/-- Witness for C2: a 16-byte digest at `sign`, and the hex digest `"00"`
(decoding to one byte) at `sign_digest`. -/
theorem sign_rejects_wrong_digest_length_witness :
    ProductionSigner.sign pS1 (List.replicate 16 0) = Except.error (digestLengthError 16) ∧
    sign_digest ['0', '0'] none pS1 = Except.error (.signError (digestLengthError 1)) :=
  ⟨sign_rejects_wrong_digest_length.1 pS1 (List.replicate 16 0) (by decide),
   sign_rejects_wrong_digest_length.2 ['0', '0'] pS1 [0] (by decide) (by decide)⟩

/-- C3: every successful `sign` call returns the hardcoded recovery id 27,
regardless of the key and the digest. -/
theorem recovery_id_constant_27 (signer : ProductionSigner) (digest : List Nat)
    (res : SignatureResult) (h : ProductionSigner.sign signer digest = Except.ok res) :
    res.v = 27 := by
  unfold ProductionSigner.sign at h
  by_cases hl : digest.length ≠ 32
  · rw [if_pos hl] at h
    cases h
  · rw [if_neg hl] at h
    simp only [Except.ok.injEq] at h
    subst h
    rfl

/-- Witness for C3 at scalar 1 and the all-zero 32-byte digest. -/
theorem recovery_id_constant_27_witness :
    ProductionSigner.sign pS1 d32 = Except.ok res1 ∧ res1.v = 27 := by
  have h : ProductionSigner.sign pS1 d32 = Except.ok res1 := rfl
  exact ⟨h, recovery_id_constant_27 pS1 d32 res1 h⟩

/-- C4: signing is deterministic — two signers reconstructed from the same
key bytes produce byte-identical signing results on every digest (the code
calls the non-randomized RFC6979-style `Signer` API, embedded as a pure
function of scalar and digest). -/
theorem sign_deterministic_same_key_bytes (bs d : List Nat) (s1 s2 : ProductionSigner)
    (h1 : ProductionSigner.from_bytes bs = Except.ok s1)
    (h2 : ProductionSigner.from_bytes bs = Except.ok s2) :
    ProductionSigner.sign s1 d = ProductionSigner.sign s2 d := by
  rw [h1] at h2
  injection h2 with h
  rw [h]

/-- Witness for C4 at the 32-byte encoding of the scalar 1. -/
theorem sign_deterministic_same_key_bytes_witness :
    ProductionSigner.sign pS1 d32 = ProductionSigner.sign pS1 d32 :=
  sign_deterministic_same_key_bytes key1bytes d32 pS1 pS1 (by rfl) (by rfl)

/-- C5: byte sequences that do not decode to a valid non-zero scalar below
the curve order (wrong length, zero, or out of range) make `from_bytes` fail
with the `"Invalid key bytes: …"` error carrying the decode failure reason,
and `get_public_key` propagates that error; no KeyMaterial is returned. -/
theorem invalid_key_material_rejected :
    (∀ bs : List Nat, scalarFromBytes bs = none ↔
        ¬(bs.length = 32 ∧ bytesToNat bs ≠ 0 ∧ bytesToNat bs < curveOrder)) ∧
    (∀ bs : List Nat, scalarFromBytes bs = none →
        ProductionSigner.from_bytes bs = Except.error invalidKeyBytesError) ∧
    (∀ (kh : List Char) (bs : List Nat), hexDecode (trimStart0x kh) = some bs →
        scalarFromBytes bs = none →
        get_public_key kh = Except.error (.keyError invalidKeyBytesError)) := by
  refine ⟨?_, ?_, ?_⟩
  · intro bs
    by_cases hl : bs.length = 32
    · by_cases hv : bytesToNat bs ≠ 0 ∧ bytesToNat bs < curveOrder
      · simp [scalarFromBytes, hl, hv]
      · simp only [scalarFromBytes, hl, if_true, if_neg hv]
        tauto
    · simp [scalarFromBytes, hl]
  · intro bs h
    simp [ProductionSigner.from_bytes, h]
  · intro kh bs hdec h
    unfold get_public_key
    rw [hdec]
    simp [ProductionSigner.from_bytes, h]

/-- Witness for C5: the all-zero 32-byte key at `from_bytes`, and the
64-character `"0"` hex key at `get_public_key`. -/
theorem invalid_key_material_rejected_witness :
    ProductionSigner.from_bytes (List.replicate 32 0) = Except.error invalidKeyBytesError ∧
    get_public_key (List.replicate 64 '0') = Except.error (.keyError invalidKeyBytesError) :=
  ⟨invalid_key_material_rejected.2.1 (List.replicate 32 0) (by decide),
   invalid_key_material_rejected.2.2 (List.replicate 64 '0') (List.replicate 32 0)
     (by decide) (by decide)⟩

/-- C6: `public_key` is total on every signer, returns the 65-byte SEC1
uncompressed encoding (tag byte 4 followed by two 32-byte coordinates), and
is a pure function of the key bytes: signers reconstructed from the same
bytes have identical public-point encodings. -/
theorem public_key_format_and_purity :
    (∀ signer : ProductionSigner,
        (ProductionSigner.public_key signer).length = 65 ∧
        (ProductionSigner.public_key signer).head? = some 4) ∧
    (∀ (bs : List Nat) (s1 s2 : ProductionSigner),
        ProductionSigner.from_bytes bs = Except.ok s1 →
        ProductionSigner.from_bytes bs = Except.ok s2 →
        ProductionSigner.public_key s1 = ProductionSigner.public_key s2) := by
  constructor
  · intro signer
    constructor
    · simp [ProductionSigner.public_key, natToBytes_length]
    · rfl
  · intro bs s1 s2 h1 h2
    rw [h1] at h2
    injection h2 with h
    rw [h]

/-- Witness for C6 at the 32-byte encoding of the scalar 1. -/
theorem public_key_format_and_purity_witness :
    (ProductionSigner.public_key pS1).length = 65 ∧
    ProductionSigner.public_key pS1 = ProductionSigner.public_key pS1 :=
  ⟨(public_key_format_and_purity.1 pS1).1,
   public_key_format_and_purity.2 key1bytes pS1 pS1 (by rfl) (by rfl)⟩

/-- C7: `sign_transaction` signs the Keccak-256 digest of the payload with
the freshly generated key and returns the `"0x"`-prefixed signature hex,
which has exactly 128 hex characters after the prefix. -/
theorem sign_transaction_hashes_and_encodes (payload : List Nat) (fk : ProductionSigner) :
    ∃ res : SignatureResult,
      ProductionSigner.sign fk (keccak256 payload) = Except.ok res ∧
      sign_transaction payload fk = Except.ok ('0' :: 'x' :: hexEncode res.signature) ∧
      (hexEncode res.signature).length = 128 := by
  have hk : ¬(keccak256 payload).length ≠ 32 := by
    rw [keccak256_length]
    omega
  have hsign : ProductionSigner.sign fk (keccak256 payload) = Except.ok
      { signature := ecdsaSignBytes fk.key.scalar (keccak256 payload)
      , r := (ecdsaSignBytes fk.key.scalar (keccak256 payload)).take 32
      , s := (ecdsaSignBytes fk.key.scalar (keccak256 payload)).drop 32
      , v := 27 } := by
    unfold ProductionSigner.sign
    rw [if_neg hk]
  refine ⟨_, hsign, ?_, ?_⟩
  · simp only [sign_transaction]
    rw [hsign]
  · simp only [hexEncode_length, ecdsaSignBytes_length]

/-- Witness for C7 at the empty payload and scalar 1. -/
theorem sign_transaction_hashes_and_encodes_witness :
    ∃ res : SignatureResult,
      ProductionSigner.sign pS1 (keccak256 []) = Except.ok res ∧
      sign_transaction [] pS1 = Except.ok ('0' :: 'x' :: hexEncode res.signature) ∧
      (hexEncode res.signature).length = 128 :=
  sign_transaction_hashes_and_encodes [] pS1

/-- C8: the digest-length error branch is unreachable from
`sign_transaction`: Keccak-256 digests are always 32 bytes, so the call
succeeds for every payload. -/
theorem sign_transaction_no_digest_length_error (payload : List Nat) (fk : ProductionSigner) :
    (keccak256 payload).length = 32 ∧
    ∃ out, sign_transaction payload fk = Except.ok out := by
  have hk : ¬(keccak256 payload).length ≠ 32 := by
    rw [keccak256_length]
    omega
  have hsign : ProductionSigner.sign fk (keccak256 payload) = Except.ok
      { signature := ecdsaSignBytes fk.key.scalar (keccak256 payload)
      , r := (ecdsaSignBytes fk.key.scalar (keccak256 payload)).take 32
      , s := (ecdsaSignBytes fk.key.scalar (keccak256 payload)).drop 32
      , v := 27 } := by
    unfold ProductionSigner.sign
    rw [if_neg hk]
  refine ⟨keccak256_length payload,
    '0' :: 'x' :: hexEncode (ecdsaSignBytes fk.key.scalar (keccak256 payload)), ?_⟩
  simp only [sign_transaction]
  rw [hsign]

/-- Witness for C8 at the empty payload and scalar 1. -/
theorem sign_transaction_no_digest_length_error_witness :
    (keccak256 []).length = 32 ∧
    ∃ out, sign_transaction [] pS1 = Except.ok out :=
  sign_transaction_no_digest_length_error [] pS1

/-- C9: `sign_digest` validates in a fixed order — digest hex decode, then
key hex decode and key-byte validation, and only then the digest length
check inside `sign`; a wrong-length digest together with an invalid key
therefore reports the key error. -/
theorem sign_digest_validation_order :
    (∀ (dg : List Char) (key : Option (List Char)) (fk : ProductionSigner),
        hexDecode (trimStart0x dg) = none →
        sign_digest dg key fk = Except.error .invalidHexDigest) ∧
    (∀ (dg kh : List Char) (fk : ProductionSigner) (bs : List Nat),
        hexDecode (trimStart0x dg) = some bs → bs.length ≠ 32 →
        hexDecode (trimStart0x kh) = none →
        sign_digest dg (some kh) fk = Except.error .invalidHexKey) ∧
    (∀ (dg kh : List Char) (fk : ProductionSigner) (bs kbs : List Nat),
        hexDecode (trimStart0x dg) = some bs → bs.length ≠ 32 →
        hexDecode (trimStart0x kh) = some kbs → scalarFromBytes kbs = none →
        sign_digest dg (some kh) fk = Except.error (.keyError invalidKeyBytesError)) := by
  refine ⟨?_, ?_, ?_⟩
  · intro dg key fk h
    unfold sign_digest
    rw [h]
  · intro dg kh fk bs hdg hlen hkh
    simp only [sign_digest, hdg, hkh]
  · intro dg kh fk bs kbs hdg hlen hkh hscal
    simp only [sign_digest, hdg, hkh, ProductionSigner.from_bytes, hscal]

/-- Witness for C9: digest `"z"` (bad hex); digest `"00"` (one byte) with
key `"zz"` (bad hex); digest `"00"` with key `"00"` (wrong scalar length). -/
theorem sign_digest_validation_order_witness :
    sign_digest ['z'] none pS1 = Except.error .invalidHexDigest ∧
    sign_digest ['0', '0'] (some ['z', 'z']) pS1 = Except.error .invalidHexKey ∧
    sign_digest ['0', '0'] (some ['0', '0']) pS1 =
      Except.error (.keyError invalidKeyBytesError) :=
  ⟨sign_digest_validation_order.1 ['z'] none pS1 (by decide),
   sign_digest_validation_order.2.1 ['0', '0'] ['z', 'z'] pS1 [0]
     (by decide) (by decide) (by decide),
   sign_digest_validation_order.2.2 ['0', '0'] ['0', '0'] pS1 [0] [0]
     (by decide) (by decide) (by decide) (by decide)⟩

/-- C10: the `"0x"` handling strips every leading repetition of the
lowercase `"0x"` pattern — a `"0x0x"`-prefixed input behaves exactly like
the unprefixed one in both `sign_digest` (digest and key argument) and
`get_public_key` — while an uppercase `"0X"` prefix is not stripped and
makes hex decoding fail. -/
theorem hex_prefix_strip_behavior :
    (∀ h : List Char, trimStart0x ('0' :: 'x' :: '0' :: 'x' :: h) = trimStart0x h) ∧
    (∀ (h : List Char) (key : Option (List Char)) (fk : ProductionSigner),
        sign_digest ('0' :: 'x' :: '0' :: 'x' :: h) key fk = sign_digest h key fk) ∧
    (∀ (dg kh : List Char) (fk : ProductionSigner),
        sign_digest dg (some ('0' :: 'x' :: '0' :: 'x' :: kh)) fk =
          sign_digest dg (some kh) fk) ∧
    (∀ h : List Char, get_public_key ('0' :: 'x' :: '0' :: 'x' :: h) = get_public_key h) ∧
    (∀ (h : List Char) (key : Option (List Char)) (fk : ProductionSigner),
        sign_digest ('0' :: 'X' :: h) key fk = Except.error .invalidHexDigest) ∧
    (∀ h : List Char, get_public_key ('0' :: 'X' :: h) = Except.error .invalidHexKey) := by
  refine ⟨fun h => rfl, fun h key fk => rfl, ?_, fun h => rfl, ?_, ?_⟩
  · intro dg kh fk
    rfl
  · intro h key fk
    unfold sign_digest
    rw [trimStart0x_0X, hexDecode_0X]
  · intro h
    unfold get_public_key
    rw [trimStart0x_0X, hexDecode_0X]

/-- Witness for C10 at the 64-character `"0"` hex key. -/
theorem hex_prefix_strip_behavior_witness :
    get_public_key ('0' :: 'x' :: '0' :: 'x' :: List.replicate 64 '0') =
      get_public_key (List.replicate 64 '0') ∧
    get_public_key ('0' :: 'X' :: List.replicate 64 '0') = Except.error .invalidHexKey :=
  ⟨hex_prefix_strip_behavior.2.2.2.1 (List.replicate 64 '0'),
   hex_prefix_strip_behavior.2.2.2.2.2 (List.replicate 64 '0')⟩

end CryptoSigner
